import Mathlib

/-!
Shallow embedding of `src/layer/utils/grpc/channel.py` (the gRPC channel
factory of the sdk-layer repository) together with theorems about it.

Python bytes and str values are both modelled as `String`; Python `int` is
modelled as `Int`.  External collaborators (the socket certificate fetch, the
x509 parsing library, the platform trust store and base64 encoding) are
modelled as an environment record `SslEnv` supplying their observable
behaviour; the code of `channel.py` itself is translated line by line.
-/

/-- Python option-list values: `Union[str, int]` in the source signature. -/
inductive OptVal where
  | str (s : String)
  | int (n : Int)
deriving DecidableEq, Repr

/-- One entry of a gRPC channel options list: `Tuple[str, Union[str, int]]`. -/
abbrev OptEntry := String × OptVal

/-- The result of `cert.extensions.get_extension_for_oid(SUBJECT_ALTERNATIVE_NAME)`
followed by `.value.get_values_for_type(x509.DNSName)`, for a parsed
certificate: `none` models a certificate without a Subject Alternative Name
extension (the library raises `ExtensionNotFound`); `some l` models an
extension whose DNS-type values are `l` (values of other types are dropped by
`get_values_for_type`, which can leave `l` empty). -/
structure X509Certificate where
  san_dns_names : Option (List String)
deriving DecidableEq, Repr

/-- Environment of external collaborators used by `channel.py`:
`get_server_certificate host port` models `ssl.get_server_certificate`
(`none` is a socket-level failure, `some pem` the retrieved PEM text);
`load_pem_x509_certificate` models the x509 parsing library (`none` is a
parse failure, i.e. `ValueError`); `get_ca_certs` models
`ssl_context.get_ca_certs(binary_form=True)`, the platform trust store's DER
certificates (bytes modelled as `String`); `base64_der` models the base64
body that `ssl.DER_cert_to_PEM_cert` wraps between the PEM header and
footer lines. -/
structure SslEnv where
  get_server_certificate : String → Int → Option String
  load_pem_x509_certificate : String → Option X509Certificate
  get_ca_certs : List String
  base64_der : String → String

/-- `GRPCSSLConfig` dataclass: `cadata: Optional[bytes]`,
`hostname_override: Optional[str]`, both defaulting to `None`. -/
structure GRPCSSLConfig where
  cadata : Option String := none
  hostname_override : Option String := none
deriving DecidableEq, Repr

/-- The distinct raise sites that can abort `create_grpc_ssl_config`.
`valueError` is the Python `ValueError` from unpacking `address.split(":", 1)`
into two names or from `int(port)`; `connectionError` is the socket-level
failure inside `ssl.get_server_certificate`; `pemParseError` is the
`ValueError` raised by `x509.load_pem_x509_certificate` on malformed input;
`extensionNotFound` is `x509.ExtensionNotFound` from
`get_extension_for_oid(SUBJECT_ALTERNATIVE_NAME)`; `indexError` is the Python
`IndexError` from `[0]` when `get_values_for_type(x509.DNSName)` is empty. -/
inductive TrustError where
  | valueError
  | connectionError
  | pemParseError
  | extensionNotFound
  | indexError
deriving DecidableEq, Repr

/-- The spec's `ConnectionError` taxon: socket-level retrieval failure. -/
def TrustError.isConnectionError : TrustError → Bool
  | .connectionError => true
  | _ => false

/-- The spec's `CertificateParseError` taxon: the certificate cannot be
parsed, or lacks a Subject Alternative Name extension. -/
def TrustError.isCertificateParseError : TrustError → Bool
  | .pemParseError => true
  | .extensionNotFound => true
  | _ => false

/-- Python `s.split(sep, 1)` unpacked into two names, over `sep = ':'`:
returns the part before the first colon and everything after it, or `none`
when the string has no colon (in which case the Python unpacking
`host, port = ...` raises `ValueError`). -/
def splitOnceColonAux : List Char → List Char → Option (String × String)
  | _, [] => none
  | acc, c :: cs =>
    if c = ':' then some (⟨acc.reverse⟩, ⟨cs⟩) else splitOnceColonAux (c :: acc) cs

/-- `host, port = address.split(":", 1)` as a partial operation. -/
def splitHostPort (address : String) : Option (String × String) :=
  splitOnceColonAux [] address.data

/-- Python `int(port)` on a decimal string: an optional sign followed by at
least one digit (surrounding whitespace and underscore grouping, which
Python also accepts, do not occur in this module's inputs). `none` models
`ValueError`. -/
def pyInt (s : String) : Option Int :=
  let digits : List Char → Option Nat := fun cs =>
    if cs.isEmpty then none
    else cs.foldl (fun acc c =>
      match acc with
      | none => none
      | some n => if c.isDigit then some (n * 10 + (c.toNat - 48)) else none)
      (some 0)
  match s.data with
  | '-' :: rest => (digits rest).map fun n => -(n : Int)
  | '+' :: rest => (digits rest).map fun n => (n : Int)
  | rest => (digits rest).map fun n => (n : Int)

/-- `"\n".join(strings)` from Python. -/
def joinNewline : List String → String
  | [] => ""
  | [x] => x
  | x :: y :: xs => x ++ "\n" ++ joinNewline (y :: xs)

/-- `ssl.DER_cert_to_PEM_cert`: wraps the base64 body of the DER bytes in
the PEM certificate header and footer lines, with a trailing newline. -/
def DER_cert_to_PEM_cert (env : SslEnv) (der : String) : String :=
  "-----BEGIN CERTIFICATE-----\n" ++ env.base64_der der ++
    "\n-----END CERTIFICATE-----\n"

/-- `_load_default_ssl_certs`: PEM-encode every DER certificate of the
platform default trust store and join the blocks with newlines. -/
def load_default_ssl_certs (env : SslEnv) : String :=
  joinNewline (env.get_ca_certs.map (DER_cert_to_PEM_cert env))

/-- `create_grpc_ssl_config(address, *, do_verify_ssl=True,
do_force_cadata_load=False)`.  The verify path returns default trust
(optionally with the platform bundle as `cadata`); the non-verify path
fetches the peer's leaf certificate over a raw TLS handshake, pins its PEM
bytes and extracts the first DNS-type Subject Alternative Name as the
hostname override. -/
def create_grpc_ssl_config (env : SslEnv) (address : String)
    (do_verify_ssl : Bool := true) (do_force_cadata_load : Bool := false) :
    Except TrustError GRPCSSLConfig :=
  if do_verify_ssl then
    .ok { cadata := if do_force_cadata_load then some (load_default_ssl_certs env) else none,
          hostname_override := none }
  else
    match splitHostPort address with
    | none => .error .valueError
    | some (host, portStr) =>
      match pyInt portStr with
      | none => .error .valueError
      | some port =>
        match env.get_server_certificate host port with
        | none => .error .connectionError
        | some cadata =>
          match env.load_pem_x509_certificate cadata with
          | none => .error .pemParseError
          | some cert =>
            match cert.san_dns_names with
            | none => .error .extensionNotFound
            | some [] => .error .indexError
            | some (dns0 :: _) =>
              .ok { cadata := some cadata, hostname_override := some dns0 }

/-- JSON documents as built by `json.dumps` on the retry-policy dict:
strings, integers, arrays and objects (object fields keep insertion
order, as Python dicts do). -/
inductive Json where
  | str (s : String)
  | int (n : Int)
  | arr (elems : List Json)
  | obj (fields : List (String × Json))

/-- A JSON string literal.  The documents serialized in this module contain
only printable ASCII without quotes or backslashes, so no escaping is
required. -/
def Json.quote (s : String) : String := "\"" ++ s ++ "\""

mutual

/-- `json.dumps` with its default separators `", "` and `": "`. -/
def Json.dump : Json → String
  | .str s => Json.quote s
  | .int n => toString n
  | .arr elems => "[" ++ Json.dumpElems elems ++ "]"
  | .obj fields => "\x7b" ++ Json.dumpFields fields ++ "\x7d"

/-- Array elements joined by `", "`. -/
def Json.dumpElems : List Json → String
  | [] => ""
  | [x] => Json.dump x
  | x :: y :: xs => Json.dump x ++ ", " ++ Json.dumpElems (y :: xs)

/-- Object fields `"key": value` joined by `", "`. -/
def Json.dumpFields : List (String × Json) → String
  | [] => ""
  | [(k, v)] => Json.quote k ++ ": " ++ Json.dump v
  | (k, v) :: f :: fs => Json.quote k ++ ": " ++ Json.dump v ++ ", " ++ Json.dumpFields (f :: fs)

end

/-- The retry-policy document literal passed to `json.dumps` in
`create_grpc_channel`. -/
def retry_policy_json : Json :=
  .obj [("methodConfig", .arr [
    .obj [
      ("name", .arr [.obj []]),
      ("retryPolicy", .obj [
        ("maxAttempts", .int 5),
        ("initialBackoff", .str "0.3s"),
        ("maxBackoff", .str "30s"),
        ("backoffMultiplier", .int 3),
        ("retryableStatusCodes", .arr [.str "UNAVAILABLE"])])]])]

/-- `json_config = json.dumps({...})`: the serialized retry policy. -/
def json_config : String := retry_policy_json.dump

/-- The four interceptor classes composed around every channel, tagged by
construction site; `logRpcCalls` carries the `logs_file_path` argument. -/
inductive Interceptor where
  | requestId
  | trackingClient
  | grpcErrorClient
  | logRpcCalls (logs_file_path : String)
deriving DecidableEq, Repr

/-- gRPC call credentials: `grpc.access_token_call_credentials(token)`. -/
inductive CallCredentials where
  | accessToken (token : String)
deriving DecidableEq, Repr

/-- gRPC channel credentials: `grpc.ssl_channel_credentials(cadata)` and
`grpc.composite_channel_credentials(channel_creds, call_creds)`. -/
inductive ChannelCredentials where
  | ssl (cadata : Option String)
  | composite (chan : ChannelCredentials) (call : CallCredentials)
deriving DecidableEq, Repr

/-- `grpc.secure_channel(address, credentials, options)`: the transport
handle before interception, recording its construction arguments. -/
structure SecureChannel where
  address : String
  credentials : ChannelCredentials
  options : List OptEntry
deriving DecidableEq, Repr

/-- `grpc.intercept_channel(channel, *interceptors)`: the interceptors are
listed outermost first — the first interceptor sees each call before the
later ones, the last sits closest to the wire. -/
structure InterceptedChannel where
  base : SecureChannel
  interceptors : List Interceptor
deriving DecidableEq, Repr

/-- Python truthiness of an `Optional[str]`: `None` and the empty string
are falsy. -/
def pyTruthy : Option String → Bool
  | none => false
  | some s => !s.isEmpty

/-- The six option entries appended unconditionally by
`create_grpc_channel` after the optional hostname override. -/
def fixed_channel_options : List OptEntry :=
  [("grpc.enable_retries", .int 1),
   ("grpc.service_config", .str json_config),
   ("grpc.keepalive_time_ms", .int 60000),
   ("grpc.keepalive_timeout_ms", .int 5000),
   ("grpc.keepalive_permit_without_calls", .int 1),
   ("grpc.http2.max_pings_without_data", .int 0)]

/-- `create_grpc_channel(address, access_token, *, do_verify_ssl=True,
logs_file_path, options=None)`: resolves trust, builds the option list
(copying the caller's list), combines TLS and bearer-token credentials,
opens the secure channel and wraps it with the interceptor chain.  A trust
resolution failure propagates to the caller. -/
def create_grpc_channel (env : SslEnv) (address access_token : String)
    (do_verify_ssl : Bool := true) (logs_file_path : String)
    (options : Option (List OptEntry) := none) :
    Except TrustError InterceptedChannel :=
  let options0 := match options with
    | none => []
    | some l => l
  match create_grpc_ssl_config env address do_verify_ssl with
  | .error e => .error e
  | .ok ssl_config =>
    let options1 := if pyTruthy ssl_config.hostname_override then
        options0 ++ [("grpc.ssl_target_name_override",
          .str (ssl_config.hostname_override.getD ""))]
      else options0
    let options2 := options1 ++ fixed_channel_options
    .ok { base := { address := address,
                    credentials := .composite (.ssl ssl_config.cadata)
                      (.accessToken access_token),
                    options := options2 },
          interceptors := [.requestId, .trackingClient, .grpcErrorClient,
                           .logRpcCalls logs_file_path] }

/-- A store of Python list objects, for reasoning about aliasing and
mutation: list identities are natural numbers below `next`, and `lists`
gives each identity's current contents. -/
structure PyListStore where
  lists : Nat → List OptEntry
  next : Nat

/-- Allocate a fresh list object holding `l` (a Python list literal or the
result of `.copy()`). -/
def PyListStore.alloc (st : PyListStore) (l : List OptEntry) :
    PyListStore × Nat :=
  ({ lists := fun i => if i = st.next then l else st.lists i,
     next := st.next + 1 }, st.next)

/-- `lst.append(x)`: in-place mutation of the list object named `r`. -/
def PyListStore.push (st : PyListStore) (r : Nat) (x : OptEntry) :
    PyListStore :=
  { st with lists := fun i => if i = r then st.lists i ++ [x] else st.lists i }

/-- `create_grpc_channel` again, with Python list objects made explicit: the
caller passes the identity of its options list (or `none`), `options = []`
allocates a fresh empty list, `options = options.copy()` allocates a copy,
and every `options.append(...)` mutates the copy in place.  The final store
is returned alongside the result so the caller's list can be observed after
the call. -/
def create_grpc_channel_refs (env : SslEnv) (address access_token : String)
    (do_verify_ssl : Bool := true) (logs_file_path : String)
    (options : Option Nat := none) (st : PyListStore) :
    Except TrustError InterceptedChannel × PyListStore :=
  let (st1, r0) := match options with
    | none => st.alloc []
    | some r => (st, r)
  let (st2, r1) := st1.alloc (st1.lists r0)
  match create_grpc_ssl_config env address do_verify_ssl with
  | .error e => (.error e, st2)
  | .ok ssl_config =>
    let st3 := if pyTruthy ssl_config.hostname_override then
        st2.push r1 ("grpc.ssl_target_name_override",
          .str (ssl_config.hostname_override.getD ""))
      else st2
    let st4 := st3.push r1 ("grpc.enable_retries", .int 1)
    let st5 := st4.push r1 ("grpc.service_config", .str json_config)
    let st6 := st5.push r1 ("grpc.keepalive_time_ms", .int 60000)
    let st7 := st6.push r1 ("grpc.keepalive_timeout_ms", .int 5000)
    let st8 := st7.push r1 ("grpc.keepalive_permit_without_calls", .int 1)
    let st9 := st8.push r1 ("grpc.http2.max_pings_without_data", .int 0)
    (.ok { base := { address := address,
                     credentials := .composite (.ssl ssl_config.cadata)
                       (.accessToken access_token),
                     options := st9.lists r1 },
           interceptors := [.requestId, .trackingClient, .grpcErrorClient,
                            .logRpcCalls logs_file_path] }, st9)

/-- `maxAttempts` of the retry policy. -/
def retryMaxAttempts : ℕ := 5

/-- `initialBackoff` of the retry policy, in seconds (`"0.3s"`). -/
def retryInitialBackoff : ℚ := 3 / 10

/-- `maxBackoff` of the retry policy, in seconds (`"30s"`). -/
def retryMaxBackoff : ℚ := 30

/-- `backoffMultiplier` of the retry policy. -/
def retryBackoffMultiplier : ℚ := 3

/-- The capped geometric backoff sequence of the retry policy:
`min(initialBackoff * multiplier^k, maxBackoff)`. -/
def cappedBackoff (k : ℕ) : ℚ :=
  min (retryInitialBackoff * retryBackoffMultiplier ^ k) retryMaxBackoff

/-- The delay between the first attempt and the start of attempt `n`
(1-indexed): attempt `n` is preceded by the backoffs of index `0` to
`n - 2`. -/
def delayToAttempt (n : ℕ) : ℚ :=
  ∑ k ∈ Finset.range (n - 1), cappedBackoff k

/-- A test environment for the verify path and the default-anchor path: the
trust store holds one DER certificate; socket fetch and parsing are never
consulted on these paths. -/
def envVerify : SslEnv :=
  { get_server_certificate := fun _ _ => none,
    load_pem_x509_certificate := fun _ => none,
    get_ca_certs := ["DER-ANCHOR-1"],
    base64_der := fun _ => "QW5jaG9yMQ==" }

/-- A test environment whose socket certificate fetch always fails. -/
def envFetchFail : SslEnv :=
  { get_server_certificate := fun _ _ => none,
    load_pem_x509_certificate := fun _ => none,
    get_ca_certs := [],
    base64_der := fun _ => "" }

/-- A test environment for the pinning path: the handshake returns a PEM
certificate whose Subject Alternative Name extension holds one DNS entry. -/
def envPinned : SslEnv :=
  { get_server_certificate := fun _ _ => some "PINNED-LEAF-PEM",
    load_pem_x509_certificate := fun _ =>
      some { san_dns_names := some ["alt.example.com"] },
    get_ca_certs := [],
    base64_der := fun _ => "" }

/-- A test environment whose fetched certificate parses and carries a
Subject Alternative Name extension, but one with no DNS-type values. -/
def envNoDnsSan : SslEnv :=
  { get_server_certificate := fun _ _ => some "PINNED-LEAF-PEM",
    load_pem_x509_certificate := fun _ => some { san_dns_names := some [] },
    get_ca_certs := [],
    base64_der := fun _ => "" }

/-- A test environment whose fetched certificate's first DNS-type Subject
Alternative Name value is the empty string. -/
def envEmptySan : SslEnv :=
  { get_server_certificate := fun _ _ => some "PINNED-LEAF-PEM",
    load_pem_x509_certificate := fun _ => some { san_dns_names := some [""] },
    get_ca_certs := [],
    base64_der := fun _ => "" }

/-- A one-list store: the caller's options list is object `0` and holds one
entry. -/
def storeOne : PyListStore :=
  { lists := fun _ => [("caller.key", .int 7)], next := 1 }

/-- A one-entry caller options list used as a concrete `baseOptions`. -/
def optsBase7 : List OptEntry := [("caller.key", .int 7)]

/-- The channel built over `envVerify` at `example.com:443` with
`do_verify_ssl = true` and `optsBase7` as the caller's list. -/
def chVerify7 : InterceptedChannel :=
  { base := { address := "example.com:443",
              credentials := .composite (.ssl none) (.accessToken "token123"),
              options := optsBase7 ++ fixed_channel_options },
    interceptors := [.requestId, .trackingClient, .grpcErrorClient,
                     .logRpcCalls "/tmp/log"] }

/-- The trust config resolved over `envEmptySan`: the pinned certificate is
present and its first DNS-type Subject Alternative Name is the empty
string. -/
def cfgEmptySan : GRPCSSLConfig :=
  { cadata := some "PINNED-LEAF-PEM", hostname_override := some "" }

/-- The channel built over `envEmptySan` at `example.com:443` with
`do_verify_ssl = false` and `optsBase7` as the caller's list: no hostname
override entry is appended. -/
def chEmptySan : InterceptedChannel :=
  { base := { address := "example.com:443",
              credentials := .composite (.ssl (some "PINNED-LEAF-PEM"))
                (.accessToken "token123"),
              options := optsBase7 ++ fixed_channel_options },
    interceptors := [.requestId, .trackingClient, .grpcErrorClient,
                     .logRpcCalls "/tmp/log"] }

/-- The trust config resolved over `envPinned`: the pinned certificate's
PEM bytes and its first DNS-type Subject Alternative Name. -/
def cfgPinned : GRPCSSLConfig :=
  { cadata := some "PINNED-LEAF-PEM", hostname_override := some "alt.example.com" }

lemma str_ne_empty_of_pos_length (s : String) (h : 0 < s.length) : s ≠ "" := by
  intro he
  rw [he] at h
  simp at h

lemma joinNewline_cons_ne_empty (x : String) (xs : List String)
    (hx : 0 < x.length) : joinNewline (x :: xs) ≠ "" := by
  cases xs with
  | nil => exact str_ne_empty_of_pos_length x hx
  | cons y ys =>
    apply str_ne_empty_of_pos_length
    simp only [joinNewline, String.length_append]
    omega

/-- C8: for every address (and every environment), `create_grpc_ssl_config`
with `do_verify_ssl = true` and `do_force_cadata_load = false` returns the
default-trust config: no trust anchor bytes and no hostname override. -/
theorem ssl_config_verify_defaults (env : SslEnv) (address : String) :
    create_grpc_ssl_config env address true false =
      .ok { cadata := none, hostname_override := none } := rfl

/-- C9: for every address, `create_grpc_ssl_config` with
`do_verify_ssl = true` and `do_force_cadata_load = true` returns a config
whose trust anchor bytes are present and non-empty, being the PEM blocks of
the platform default certificate authority bundle joined by newlines,
provided the platform bundle is non-empty. -/
theorem ssl_config_force_cadata_bundle (env : SslEnv) (address : String)
    (h : env.get_ca_certs ≠ []) :
    create_grpc_ssl_config env address true true =
      .ok { cadata := some (joinNewline
              (env.get_ca_certs.map (DER_cert_to_PEM_cert env))),
            hostname_override := none } ∧
    env.get_ca_certs.map (DER_cert_to_PEM_cert env) ≠ [] ∧
    joinNewline (env.get_ca_certs.map (DER_cert_to_PEM_cert env)) ≠ "" ∧
    ∀ b ∈ env.get_ca_certs.map (DER_cert_to_PEM_cert env),
      ∃ der ∈ env.get_ca_certs,
        b = "-----BEGIN CERTIFICATE-----\n" ++ env.base64_der der ++
          "\n-----END CERTIFICATE-----\n" := by
  refine ⟨rfl, ?_, ?_, ?_⟩
  · simpa using h
  · cases hc : env.get_ca_certs with
    | nil => exact absurd hc h
    | cons c cs =>
      simp only [List.map]
      apply joinNewline_cons_ne_empty
      have hhead : 0 < ("-----BEGIN CERTIFICATE-----\n" : String).length := by decide
      simp only [DER_cert_to_PEM_cert, String.length_append]
      omega
  · intro b hb
    rw [List.mem_map] at hb
    obtain ⟨der, hder, rfl⟩ := hb
    exact ⟨der, hder, rfl⟩

theorem ssl_config_force_cadata_bundle_app :
    create_grpc_ssl_config envVerify "example.com:443" true true =
      .ok { cadata := some (joinNewline
              (envVerify.get_ca_certs.map (DER_cert_to_PEM_cert envVerify))),
            hostname_override := none } ∧
    envVerify.get_ca_certs.map (DER_cert_to_PEM_cert envVerify) ≠ [] ∧
    joinNewline (envVerify.get_ca_certs.map (DER_cert_to_PEM_cert envVerify)) ≠ "" ∧
    ∀ b ∈ envVerify.get_ca_certs.map (DER_cert_to_PEM_cert envVerify),
      ∃ der ∈ envVerify.get_ca_certs,
        b = "-----BEGIN CERTIFICATE-----\n" ++ envVerify.base64_der der ++
          "\n-----END CERTIFICATE-----\n" :=
  ssl_config_force_cadata_bundle envVerify "example.com:443" (by decide)

/-- C6 counterexample: with `maxAttempts = 5` the 5th (last) attempt is
preceded by the backoffs of index 0..3 only, so the cumulative delay from
the first attempt to the start of the last is 0.3 + 0.9 + 2.7 + 8.1 = 12
seconds — not at least 25 seconds as claimed. -/
theorem retry_delay_to_last_attempt_is_twelve :
    delayToAttempt retryMaxAttempts = 12 ∧
    ¬ (25 ≤ delayToAttempt retryMaxAttempts) := by
  norm_num [delayToAttempt, retryMaxAttempts, Finset.sum_range_succ, cappedBackoff,
    retryInitialBackoff, retryBackoffMultiplier, retryMaxBackoff, min_def]

/-- C6 amended: every term of the capped geometric backoff sequence
`min(0.3 * 3^k, 30)` is at most the 30s ceiling (in particular the backoff
preceding the last attempt), and the sum of the five sequence terms for
k = 0..4 is at least 25s (it is 36.3s); the cumulative delay from the first
attempt to the start of the 5th (last) attempt, however, is exactly 12s. -/
theorem retry_backoff_policy_bounds :
    (∀ k : ℕ, cappedBackoff k ≤ retryMaxBackoff) ∧
    delayToAttempt retryMaxAttempts = 12 ∧
    25 ≤ ∑ k ∈ Finset.range retryMaxAttempts, cappedBackoff k := by
  refine ⟨fun k => min_le_right _ _, ?_, ?_⟩
  · norm_num [delayToAttempt, retryMaxAttempts, Finset.sum_range_succ, cappedBackoff,
      retryInitialBackoff, retryBackoffMultiplier, retryMaxBackoff, min_def]
  · norm_num [retryMaxAttempts, Finset.sum_range_succ, cappedBackoff,
      retryInitialBackoff, retryBackoffMultiplier, retryMaxBackoff, min_def]

lemma create_grpc_channel_ok (env : SslEnv) (address access_token : String)
    (do_verify_ssl : Bool) (logs_file_path : String)
    (options : Option (List OptEntry)) (ch : InterceptedChannel)
    (h : create_grpc_channel env address access_token do_verify_ssl
      logs_file_path options = .ok ch) :
    ∃ cfg : GRPCSSLConfig,
      create_grpc_ssl_config env address do_verify_ssl = .ok cfg ∧
      ch.base.address = address ∧
      ch.base.credentials = .composite (.ssl cfg.cadata)
        (.accessToken access_token) ∧
      ch.base.options = options.getD [] ++
        (if pyTruthy cfg.hostname_override then
          [("grpc.ssl_target_name_override",
            OptVal.str (cfg.hostname_override.getD ""))]
         else []) ++ fixed_channel_options ∧
      ch.interceptors = [.requestId, .trackingClient, .grpcErrorClient,
                         .logRpcCalls logs_file_path] := by
  cases hcfg : create_grpc_ssl_config env address do_verify_ssl with
  | error e =>
    rw [create_grpc_channel.eq_def, hcfg] at h
    simp at h
  | ok cfg =>
    refine ⟨cfg, rfl, ?_⟩
    rw [create_grpc_channel.eq_def, hcfg] at h
    cases htr : pyTruthy cfg.hostname_override with
    | true =>
      simp [htr] at h
      subst h
      cases options <;> simp [Option.getD]
    | false =>
      simp [htr] at h
      subst h
      cases options <;> simp [Option.getD]

/-- C5: every channel built by `create_grpc_channel` carries the fixed
interception chain request-id stamping, call tracking, error
normalization, logging — in that order, listed outermost first as
`grpc.intercept_channel` composes them, so request-id is outermost (the
head) and logging innermost (the last). -/
theorem channel_interceptor_chain_order (env : SslEnv)
    (address access_token : String) (do_verify_ssl : Bool)
    (logs_file_path : String) (options : Option (List OptEntry))
    (ch : InterceptedChannel)
    (h : create_grpc_channel env address access_token do_verify_ssl
      logs_file_path options = .ok ch) :
    ch.interceptors = [.requestId, .trackingClient, .grpcErrorClient,
                       .logRpcCalls logs_file_path] ∧
    ch.interceptors.head? = some .requestId ∧
    ch.interceptors.getLast? = some (.logRpcCalls logs_file_path) := by
  obtain ⟨cfg, -, -, -, -, hint⟩ := create_grpc_channel_ok env address
    access_token do_verify_ssl logs_file_path options ch h
  rw [hint]
  exact ⟨rfl, rfl, rfl⟩

theorem channel_interceptor_chain_order_app :
    chVerify7.interceptors = [.requestId, .trackingClient, .grpcErrorClient,
                              .logRpcCalls "/tmp/log"] ∧
    chVerify7.interceptors.head? = some .requestId ∧
    chVerify7.interceptors.getLast? = some (.logRpcCalls "/tmp/log") :=
  channel_interceptor_chain_order envVerify "example.com:443" "token123"
    true "/tmp/log" (some optsBase7) chVerify7 rfl

/-- C4: every channel built by `create_grpc_channel` carries, under the
`grpc.service_config` option, the serialization of exactly the document
`{methodConfig: [{name: [{}], retryPolicy: {maxAttempts: 5,
initialBackoff: "0.3s", maxBackoff: "30s", backoffMultiplier: 3,
retryableStatusCodes: ["UNAVAILABLE"]}}]}`. -/
theorem channel_service_config_document (env : SslEnv)
    (address access_token : String) (do_verify_ssl : Bool)
    (logs_file_path : String) (options : Option (List OptEntry))
    (ch : InterceptedChannel)
    (h : create_grpc_channel env address access_token do_verify_ssl
      logs_file_path options = .ok ch) :
    ("grpc.service_config",
      OptVal.str (Json.dump (Json.obj [("methodConfig", Json.arr [
        Json.obj [
          ("name", Json.arr [Json.obj []]),
          ("retryPolicy", Json.obj [
            ("maxAttempts", Json.int 5),
            ("initialBackoff", Json.str "0.3s"),
            ("maxBackoff", Json.str "30s"),
            ("backoffMultiplier", Json.int 3),
            ("retryableStatusCodes", Json.arr [Json.str "UNAVAILABLE"])])]])])))
      ∈ ch.base.options := by
  obtain ⟨cfg, -, -, -, hopt, -⟩ := create_grpc_channel_ok env address
    access_token do_verify_ssl logs_file_path options ch h
  rw [hopt]
  refine List.mem_append.mpr (Or.inr ?_)
  show ("grpc.service_config", OptVal.str json_config) ∈ fixed_channel_options
  simp [fixed_channel_options]

theorem channel_service_config_document_app :
    ("grpc.service_config",
      OptVal.str (Json.dump (Json.obj [("methodConfig", Json.arr [
        Json.obj [
          ("name", Json.arr [Json.obj []]),
          ("retryPolicy", Json.obj [
            ("maxAttempts", Json.int 5),
            ("initialBackoff", Json.str "0.3s"),
            ("maxBackoff", Json.str "30s"),
            ("backoffMultiplier", Json.int 3),
            ("retryableStatusCodes", Json.arr [Json.str "UNAVAILABLE"])])]])])))
      ∈ chVerify7.base.options :=
  channel_service_config_document envVerify "example.com:443" "token123"
    true "/tmp/log" (some optsBase7) chVerify7 rfl

/-- C3 counterexample: with an empty caller list and no hostname override,
the options list passed to the transport has 6 entries, not the 4 (or 5,
counting an override) the claim predicts — the code appends six fixed
entries (`enable_retries`, `service_config` and four keepalive/ping
settings), not four. -/
theorem channel_appends_six_fixed_entries :
    (create_grpc_channel envVerify "example.com:443" "token123" true
        "/tmp/log" (some [])).map (fun ch => ch.base.options.length) =
      .ok 6 ∧
    (6 : ℕ) ≠ 0 + 4 ∧ (6 : ℕ) ≠ 0 + 4 + 1 := by
  refine ⟨rfl, by decide, by decide⟩

/-- C3 amended: the options list passed to the transport extends the
caller's `baseOptions` with exactly 6 fixed entries plus 0 or 1
hostname-override entry, the override entry appearing only when a hostname
override is present and before the fixed entries. -/
theorem channel_options_extend_base (env : SslEnv)
    (address access_token : String) (do_verify_ssl : Bool)
    (logs_file_path : String) (base : List OptEntry)
    (ch : InterceptedChannel)
    (h : create_grpc_channel env address access_token do_verify_ssl
      logs_file_path (some base) = .ok ch) :
    (ch.base.options = base ++ fixed_channel_options ∨
     ∃ s, ch.base.options =
       base ++ [("grpc.ssl_target_name_override", OptVal.str s)] ++
         fixed_channel_options) ∧
    fixed_channel_options.length = 6 := by
  obtain ⟨cfg, -, -, -, hopt, -⟩ := create_grpc_channel_ok env address
    access_token do_verify_ssl logs_file_path (some base) ch h
  refine ⟨?_, rfl⟩
  cases htr : pyTruthy cfg.hostname_override with
  | false =>
    left
    simpa [htr] using hopt
  | true =>
    right
    exact ⟨cfg.hostname_override.getD "", by simpa [htr] using hopt⟩

theorem channel_options_extend_base_app :
    (chVerify7.base.options = optsBase7 ++ fixed_channel_options ∨
     ∃ s, chVerify7.base.options =
       optsBase7 ++ [("grpc.ssl_target_name_override", OptVal.str s)] ++
         fixed_channel_options) ∧
    fixed_channel_options.length = 6 :=
  channel_options_extend_base envVerify "example.com:443" "token123"
    true "/tmp/log" optsBase7 chVerify7 rfl

lemma PyListStore.lists_push_of_ne (st : PyListStore) (r : Nat) (x : OptEntry)
    (i : Nat) (h : i ≠ r) : (st.push r x).lists i = st.lists i := by
  simp [PyListStore.push, h]

/-- C7: `create_grpc_channel` never mutates the caller's options list: over
the explicit list-object store, whatever the outcome, the caller's list is
unchanged after the call (the code copies the list before appending). -/
theorem channel_never_mutates_caller_options (env : SslEnv)
    (address access_token : String) (do_verify_ssl : Bool)
    (logs_file_path : String) (r : Nat) (st : PyListStore)
    (h : r < st.next) :
    ((create_grpc_channel_refs env address access_token do_verify_ssl
        logs_file_path (some r) st).2).lists r = st.lists r := by
  have hne : r ≠ st.next := Nat.ne_of_lt h
  cases hcfg : create_grpc_ssl_config env address do_verify_ssl with
  | error e =>
    simp [create_grpc_channel_refs, hcfg, PyListStore.alloc, hne]
  | ok cfg =>
    cases htr : pyTruthy cfg.hostname_override <;>
      simp [create_grpc_channel_refs, hcfg, htr, PyListStore.alloc,
        PyListStore.push, hne]

theorem channel_never_mutates_caller_options_app :
    ((create_grpc_channel_refs envVerify "example.com:443" "token123" true
        "/tmp/log" (some 0) storeOne).2).lists 0 = storeOne.lists 0 :=
  channel_never_mutates_caller_options envVerify "example.com:443"
    "token123" true "/tmp/log" 0 storeOne (by decide)



theorem ssl_config_pinning_result (env : SslEnv) (address : String)
    (cfg : GRPCSSLConfig)
    (h : create_grpc_ssl_config env address false = .ok cfg) :
    ∃ host portStr port pem cert dns0 rest,
      splitHostPort address = some (host, portStr) ∧
      pyInt portStr = some port ∧
      env.get_server_certificate host port = some pem ∧
      env.load_pem_x509_certificate pem = some cert ∧
      cert.san_dns_names = some (dns0 :: rest) ∧
      cfg.cadata = some pem ∧
      cfg.hostname_override = some dns0 := by
  rw [create_grpc_ssl_config.eq_def] at h
  split at h
  next hfalse => exact absurd hfalse (by simp)
  next =>
    split at h
    next hsp => simp at h
    next host portStr hsp =>
      split at h
      next hpi => simp at h
      next port hpi =>
        split at h
        next hgc => simp at h
        next pem hgc =>
          split at h
          next hlp => simp at h
          next cert hlp =>
            split at h
            next hsan => simp at h
            next hsan => simp at h
            next dns0 rest hsan =>
              simp at h
              exact ⟨host, portStr, port, pem, cert, dns0, rest, hsp, hpi,
                hgc, hlp, hsan, by rw [← h], by rw [← h]⟩

theorem ssl_config_pinning_result_app :
    ∃ host portStr port pem cert dns0 rest,
      splitHostPort "example.com:443" = some (host, portStr) ∧
      pyInt portStr = some port ∧
      envPinned.get_server_certificate host port = some pem ∧
      envPinned.load_pem_x509_certificate pem = some cert ∧
      cert.san_dns_names = some (dns0 :: rest) ∧
      cfgPinned.cadata = some pem ∧
      cfgPinned.hostname_override = some dns0 :=
  ssl_config_pinning_result envPinned "example.com:443" cfgPinned (by rfl)

/-- C1 counterexample: against a reachable endpoint whose certificate
parses and has a Subject Alternative Name extension containing no DNS-type
entry, trust resolution with `do_verify_ssl = false` aborts with the
`IndexError` from indexing `[0]` into the empty DNS-name list — an error
kind that is neither `ConnectionError` nor `CertificateParseError`. -/
theorem ssl_config_index_error_escapes :
    create_grpc_ssl_config envNoDnsSan "pinned.example:8443" false =
      .error .indexError ∧
    TrustError.isConnectionError .indexError = false ∧
    TrustError.isCertificateParseError .indexError = false :=
  ⟨rfl, rfl, rfl⟩

/-- C1 amended: on the `verifySsl = false` path, certificate-retrieval
failure surfaces as `ConnectionError` and an unparsable certificate or one
lacking a Subject Alternative Name extension surfaces as
`CertificateParseError`; the only further error kinds escaping trust
resolution are a Python `ValueError` when the address is not
`host:port` with an integer port, and a Python `IndexError` when the
Subject Alternative Name extension has no DNS-type entry. -/
theorem ssl_config_error_taxonomy (env : SslEnv) (address : String)
    (e : TrustError)
    (h : create_grpc_ssl_config env address false = .error e) :
    (e = .valueError ∧ (splitHostPort address = none ∨
      ∃ host portStr, splitHostPort address = some (host, portStr) ∧
        pyInt portStr = none)) ∨
    (e = .connectionError ∧ ∃ host portStr port,
      splitHostPort address = some (host, portStr) ∧
      pyInt portStr = some port ∧
      env.get_server_certificate host port = none) ∨
    (e = .pemParseError ∧ ∃ host portStr port pem,
      splitHostPort address = some (host, portStr) ∧
      pyInt portStr = some port ∧
      env.get_server_certificate host port = some pem ∧
      env.load_pem_x509_certificate pem = none) ∨
    (e = .extensionNotFound ∧ ∃ host portStr port pem cert,
      splitHostPort address = some (host, portStr) ∧
      pyInt portStr = some port ∧
      env.get_server_certificate host port = some pem ∧
      env.load_pem_x509_certificate pem = some cert ∧
      cert.san_dns_names = none) ∨
    (e = .indexError ∧ ∃ host portStr port pem cert,
      splitHostPort address = some (host, portStr) ∧
      pyInt portStr = some port ∧
      env.get_server_certificate host port = some pem ∧
      env.load_pem_x509_certificate pem = some cert ∧
      cert.san_dns_names = some []) := by
  rw [create_grpc_ssl_config.eq_def] at h
  split at h
  next hfalse => exact absurd hfalse (by simp)
  next =>
    split at h
    next hsp =>
      simp at h
      subst h
      exact Or.inl ⟨rfl, Or.inl hsp⟩
    next host portStr hsp =>
      split at h
      next hpi =>
        simp at h
        subst h
        exact Or.inl ⟨rfl, Or.inr ⟨host, portStr, hsp, hpi⟩⟩
      next port hpi =>
        split at h
        next hgc =>
          simp at h
          subst h
          exact Or.inr (Or.inl ⟨rfl, host, portStr, port, hsp, hpi, hgc⟩)
        next pem hgc =>
          split at h
          next hlp =>
            simp at h
            subst h
            exact Or.inr (Or.inr (Or.inl
              ⟨rfl, host, portStr, port, pem, hsp, hpi, hgc, hlp⟩))
          next cert hlp =>
            split at h
            next hsan =>
              simp at h
              subst h
              exact Or.inr (Or.inr (Or.inr (Or.inl
                ⟨rfl, host, portStr, port, pem, cert, hsp, hpi, hgc, hlp, hsan⟩)))
            next hsan =>
              simp at h
              subst h
              exact Or.inr (Or.inr (Or.inr (Or.inr
                ⟨rfl, host, portStr, port, pem, cert, hsp, hpi, hgc, hlp, hsan⟩)))
            next dns0 rest hsan => simp at h

theorem ssl_config_error_taxonomy_app :
    (TrustError.connectionError = .valueError ∧
      (splitHostPort "example.com:443" = none ∨
      ∃ host portStr, splitHostPort "example.com:443" = some (host, portStr) ∧
        pyInt portStr = none)) ∨
    (TrustError.connectionError = .connectionError ∧ ∃ host portStr port,
      splitHostPort "example.com:443" = some (host, portStr) ∧
      pyInt portStr = some port ∧
      envFetchFail.get_server_certificate host port = none) ∨
    (TrustError.connectionError = .pemParseError ∧ ∃ host portStr port pem,
      splitHostPort "example.com:443" = some (host, portStr) ∧
      pyInt portStr = some port ∧
      envFetchFail.get_server_certificate host port = some pem ∧
      envFetchFail.load_pem_x509_certificate pem = none) ∨
    (TrustError.connectionError = .extensionNotFound ∧
      ∃ host portStr port pem cert,
      splitHostPort "example.com:443" = some (host, portStr) ∧
      pyInt portStr = some port ∧
      envFetchFail.get_server_certificate host port = some pem ∧
      envFetchFail.load_pem_x509_certificate pem = some cert ∧
      cert.san_dns_names = none) ∨
    (TrustError.connectionError = .indexError ∧
      ∃ host portStr port pem cert,
      splitHostPort "example.com:443" = some (host, portStr) ∧
      pyInt portStr = some port ∧
      envFetchFail.get_server_certificate host port = some pem ∧
      envFetchFail.load_pem_x509_certificate pem = some cert ∧
      cert.san_dns_names = some []) :=
  ssl_config_error_taxonomy envFetchFail "example.com:443"
    .connectionError (by rfl)

/-- C10: the `ssl_target_name_override` option is appended only when the
resolved hostname override is truthy in Python's sense; when the pinned
certificate's first DNS-type Subject Alternative Name is the empty string,
the resolved config carries a present-but-empty override, yet no
`ssl_target_name_override` entry is appended to the options list — a
present-but-empty override is treated as absent. -/
theorem channel_empty_override_treated_absent (env : SslEnv)
    (address access_token logs_file_path : String) (base : List OptEntry)
    (cfg : GRPCSSLConfig) (ch : InterceptedChannel)
    (hcfg : create_grpc_ssl_config env address false = .ok cfg)
    (hov : cfg.hostname_override = some "")
    (h : create_grpc_channel env address access_token false logs_file_path
      (some base) = .ok ch) :
    cfg.hostname_override.isSome = true ∧
    ch.base.options = base ++ fixed_channel_options ∧
    ∀ kv ∈ ch.base.options, kv ∈ base ∨
      kv.1 ≠ "grpc.ssl_target_name_override" := by
  obtain ⟨cfg', hcfg', -, -, hopt, -⟩ := create_grpc_channel_ok env address
    access_token false logs_file_path (some base) ch h
  rw [hcfg] at hcfg'
  injection hcfg' with hcc
  subst hcc
  have htr : pyTruthy cfg.hostname_override = false := by rw [hov]; rfl
  simp only [htr, if_false, Bool.false_eq_true, List.append_nil,
    Option.getD_some] at hopt
  refine ⟨by rw [hov]; rfl, hopt, ?_⟩
  intro kv hkv
  rw [hopt] at hkv
  rcases List.mem_append.mp hkv with hb | hf
  · exact Or.inl hb
  · right
    simp only [fixed_channel_options, List.mem_cons, List.mem_singleton,
      List.not_mem_nil, or_false] at hf
    rcases hf with rfl | rfl | rfl | rfl | rfl | rfl <;> decide

theorem channel_empty_override_treated_absent_app :
    cfgEmptySan.hostname_override.isSome = true ∧
    chEmptySan.base.options = optsBase7 ++ fixed_channel_options ∧
    ∀ kv ∈ chEmptySan.base.options, kv ∈ optsBase7 ∨
      kv.1 ≠ "grpc.ssl_target_name_override" :=
  channel_empty_override_treated_absent envEmptySan "example.com:443"
    "token123" "/tmp/log" optsBase7 cfgEmptySan chEmptySan (by rfl) rfl
    (by rfl)
